import Mathlib

/-!
Verification development for the data-extraction script `01-download_data.py`.

The script issues seven fixed SQL queries against two warehouse tables
(`monthly_charges_2021` and `organizations_before_2022`) and writes each
result set to a CSV file.  We embed the two tables as lists of records and
each query as a Lean function on those lists: GROUP BY is dedup of the key
column followed by per-key aggregation, window functions are sums over the
partition's rows, ORDER BY is `List.insertionSort` with the query's ordering
relation, and the write step is a pure file-write value parameterized by the
outcome (`Except`) of the remote query.
-/

namespace DownloadData

/-- Calendar date, the value stored in the `charged_on` column. -/
structure Date where
  year : Nat
  month : Nat
  day : Nat
deriving DecidableEq

/-- `EXTRACT(MONTH FROM d)`. -/
def extractMonth (d : Date) : Nat := d.month

/-- `EXTRACT(QUARTER FROM d)`: the quarter is determined by the month. -/
def extractQuarter (d : Date) : Nat := (d.month + 2) / 3

/-- A row of the `monthly_charges_2021` source table.  `amount_usd` is
modelled as an integer amount; the claims under study only compare and sum
these values, so any linearly ordered ring of amounts yields the same
statements. -/
structure ChargeRow where
  organization_id : Nat
  plan : String
  type : String
  is_sales_driven : Bool
  charged_on : Date
  amount_usd : Int
deriving DecidableEq

/-- A row of the `organizations_before_2022` source table, holding every
column of that table referenced anywhere in the script: the 19 columns
selected by `get_orgs_before_2022` plus `company_type`, which
`get_paying_organizations` and `get_outliers_and_mode` select through the
join alias `b`. -/
structure OrgRow where
  organization_id : Nat
  organization_owner_id : Nat
  created_at : Date
  has_active_subscription : Bool
  current_subscription_plan : String
  current_billing_period : String
  first_billed_user_count : Int
  revenue_realized_to_date_usd : Int
  time_entries_count : Int
  billable_time_entries_count : Int
  hours_tracked : Int
  billable_hours_tracked : Int
  clients_used : Int
  projects_used : Int
  billable_projects_used : Int
  country : String
  industry : String
  company_type : String
  approximate_employees : Int
  reported_annual_revenue : Int
deriving DecidableEq

/-- The 19 columns that `get_orgs_before_2022` selects, in select-list order. -/
def orgsBefore2022Columns : List String :=
  ["organization_id", "organization_owner_id", "created_at",
   "has_active_subscription", "current_subscription_plan",
   "current_billing_period", "first_billed_user_count",
   "revenue_realized_to_date_usd", "time_entries_count",
   "billable_time_entries_count", "hours_tracked", "billable_hours_tracked",
   "clients_used", "projects_used", "billable_projects_used", "country",
   "industry", "approximate_employees", "reported_annual_revenue"]

/-- The columns of the `organizations_before_2022` source table that the
script's queries witness: the 19 selected by `get_orgs_before_2022` together
with `company_type`, selected from this table (alias `b`) by
`get_paying_organizations` and `get_outliers_and_mode`. -/
def organizationsBefore2022TableColumns : List String :=
  orgsBefore2022Columns ++ ["company_type"]

/-- The projection of an `organizations_before_2022` row onto the 19 columns
selected by `get_orgs_before_2022`. -/
structure OrgProjRow where
  organization_id : Nat
  organization_owner_id : Nat
  created_at : Date
  has_active_subscription : Bool
  current_subscription_plan : String
  current_billing_period : String
  first_billed_user_count : Int
  revenue_realized_to_date_usd : Int
  time_entries_count : Int
  billable_time_entries_count : Int
  hours_tracked : Int
  billable_hours_tracked : Int
  clients_used : Int
  projects_used : Int
  billable_projects_used : Int
  country : String
  industry : String
  approximate_employees : Int
  reported_annual_revenue : Int
deriving DecidableEq

/-- Column-wise projection performed by the select list of
`get_orgs_before_2022`. -/
def orgProj (b : OrgRow) : OrgProjRow :=
  { organization_id := b.organization_id
    organization_owner_id := b.organization_owner_id
    created_at := b.created_at
    has_active_subscription := b.has_active_subscription
    current_subscription_plan := b.current_subscription_plan
    current_billing_period := b.current_billing_period
    first_billed_user_count := b.first_billed_user_count
    revenue_realized_to_date_usd := b.revenue_realized_to_date_usd
    time_entries_count := b.time_entries_count
    billable_time_entries_count := b.billable_time_entries_count
    hours_tracked := b.hours_tracked
    billable_hours_tracked := b.billable_hours_tracked
    clients_used := b.clients_used
    projects_used := b.projects_used
    billable_projects_used := b.billable_projects_used
    country := b.country
    industry := b.industry
    approximate_employees := b.approximate_employees
    reported_annual_revenue := b.reported_annual_revenue }

/-- Result rows of `get_monthly_charges_2021`: `SELECT *` over the table. -/
def monthlyCharges2021Rows (charges : List ChargeRow) : List ChargeRow :=
  charges

/-- Result rows of `get_orgs_before_2022`: the 19-column select list applied
to every row of the table, with no WHERE clause. -/
def orgsBefore2022Rows (orgs : List OrgRow) : List OrgProjRow :=
  orgs.map orgProj

/-- `SUM(amount_usd)` of the `GROUP BY organization_id` group of `oid`. -/
def sumAmount (charges : List ChargeRow) (oid : Nat) : Int :=
  ((charges.filter (fun r => decide (r.organization_id = oid))).map
    (fun r => r.amount_usd)).sum

/-- The distinct organization ids of `monthly_charges_2021`: the group keys
of `GROUP BY organization_id`. -/
def distinctOrgIds (charges : List ChargeRow) : List Nat :=
  (charges.map (fun r => r.organization_id)).dedup

/-- The `GROUP BY organization_id ... HAVING pred (SUM(amount_usd))` shape
shared by the `nonzero_earners` and `outlier_earners` common table
expressions: one `(organization_id, total_revenue_2021)` pair per group
whose amount sum satisfies the HAVING predicate. -/
def havingEarners (pred : Int → Bool) (charges : List ChargeRow) :
    List (Nat × Int) :=
  (distinctOrgIds charges).filterMap (fun oid =>
    if pred (sumAmount charges oid) then some (oid, sumAmount charges oid)
    else none)

/-- The `nonzero_earners` CTE of `get_paying_organizations`:
`HAVING SUM(amount_usd) > 0`. -/
def nonzeroEarners (charges : List ChargeRow) : List (Nat × Int) :=
  havingEarners (fun s => decide (0 < s)) charges

/-- The `outlier_earners` CTE of `get_outliers_and_mode`:
`HAVING (SUM(amount_usd) > 22000) OR (SUM(amount_usd) BETWEEN 90 AND 250)`.
The thresholds are the literals embedded in the SQL text; the routine takes
no threshold argument. -/
def outlierEarners (charges : List ChargeRow) : List (Nat × Int) :=
  havingEarners
    (fun s => decide (22000 < s) || (decide (90 ≤ s) && decide (s ≤ 250)))
    charges

/-- `INNER JOIN organizations_before_2022 b ON a.organization_id =
b.organization_id`, building one output row per matching pair. -/
def joinOrgs {ρ : Type} (mk : Nat → Int → OrgRow → ρ)
    (pairs : List (Nat × Int)) (orgs : List OrgRow) : List ρ :=
  pairs.flatMap (fun p =>
    (orgs.filter (fun b => decide (b.organization_id = p.1))).map
      (mk p.1 p.2))

/-- An output row of `get_paying_organizations`, fields in select-list
order. -/
structure PayingOrgRow where
  organization_id : Nat
  organization_owner_id : Nat
  total_revenue_2021 : Int
  revenue_realized_to_date_usd : Int
  time_entries_count : Int
  billable_time_entries_count : Int
  hours_tracked : Int
  billable_hours_tracked : Int
  clients_used : Int
  projects_used : Int
  billable_projects_used : Int
  country : String
  industry : String
  company_type : String
  approximate_employees : Int
  reported_annual_revenue : Int
deriving DecidableEq

/-- Select list of `get_paying_organizations` applied to one joined pair. -/
def mkPayingRow (oid : Nat) (total : Int) (b : OrgRow) : PayingOrgRow :=
  { organization_id := oid
    organization_owner_id := b.organization_owner_id
    total_revenue_2021 := total
    revenue_realized_to_date_usd := b.revenue_realized_to_date_usd
    time_entries_count := b.time_entries_count
    billable_time_entries_count := b.billable_time_entries_count
    hours_tracked := b.hours_tracked
    billable_hours_tracked := b.billable_hours_tracked
    clients_used := b.clients_used
    projects_used := b.projects_used
    billable_projects_used := b.billable_projects_used
    country := b.country
    industry := b.industry
    company_type := b.company_type
    approximate_employees := b.approximate_employees
    reported_annual_revenue := b.reported_annual_revenue }

/-- `ORDER BY 3 DESC` of `get_paying_organizations`: column 3 is
`total_revenue_2021`, so rows are in non-increasing `total_revenue_2021`
order. -/
def relPay (x y : PayingOrgRow) : Prop :=
  y.total_revenue_2021 ≤ x.total_revenue_2021

instance : DecidableRel relPay := fun x y =>
  inferInstanceAs (Decidable (y.total_revenue_2021 ≤ x.total_revenue_2021))

/-- Result rows of `get_paying_organizations`. -/
def payingOrganizations (charges : List ChargeRow) (orgs : List OrgRow) :
    List PayingOrgRow :=
  List.insertionSort relPay (joinOrgs mkPayingRow (nonzeroEarners charges) orgs)

/-- An output row of `get_outliers_and_mode`, fields in select-list order
(note `total_revenue_2021` is column 2 here, unlike
`get_paying_organizations`). -/
structure OutlierOrgRow where
  organization_id : Nat
  total_revenue_2021 : Int
  organization_owner_id : Nat
  revenue_realized_to_date_usd : Int
  time_entries_count : Int
  billable_time_entries_count : Int
  hours_tracked : Int
  billable_hours_tracked : Int
  clients_used : Int
  projects_used : Int
  billable_projects_used : Int
  country : String
  industry : String
  company_type : String
  approximate_employees : Int
  reported_annual_revenue : Int
deriving DecidableEq

/-- Select list of `get_outliers_and_mode` applied to one joined pair. -/
def mkOutlierRow (oid : Nat) (total : Int) (b : OrgRow) : OutlierOrgRow :=
  { organization_id := oid
    total_revenue_2021 := total
    organization_owner_id := b.organization_owner_id
    revenue_realized_to_date_usd := b.revenue_realized_to_date_usd
    time_entries_count := b.time_entries_count
    billable_time_entries_count := b.billable_time_entries_count
    hours_tracked := b.hours_tracked
    billable_hours_tracked := b.billable_hours_tracked
    clients_used := b.clients_used
    projects_used := b.projects_used
    billable_projects_used := b.billable_projects_used
    country := b.country
    industry := b.industry
    company_type := b.company_type
    approximate_employees := b.approximate_employees
    reported_annual_revenue := b.reported_annual_revenue }

/-- `ORDER BY 2 DESC` of `get_outliers_and_mode`: column 2 is
`total_revenue_2021`. -/
def relOutlier (x y : OutlierOrgRow) : Prop :=
  y.total_revenue_2021 ≤ x.total_revenue_2021

instance : DecidableRel relOutlier := fun x y =>
  inferInstanceAs (Decidable (y.total_revenue_2021 ≤ x.total_revenue_2021))

/-- Result rows of `get_outliers_and_mode`. -/
def outliersAndMode (charges : List ChargeRow) (orgs : List OrgRow) :
    List OutlierOrgRow :=
  List.insertionSort relOutlier
    (joinOrgs mkOutlierRow (outlierEarners charges) orgs)

/-- An output row of `get_churn_numbers`. -/
structure ChurnRow where
  organization_id : Nat
  times_churned : Int
  times_reactivated : Int
  times_retained : Int
  revenue : Int
deriving DecidableEq

/-- `ORDER BY 2 DESC, 3 ASC` of `get_churn_numbers`: `times_churned`
descending, ties broken by `times_reactivated` ascending. -/
def relChurn (x y : ChurnRow) : Prop :=
  y.times_churned < x.times_churned ∨
    (x.times_churned = y.times_churned ∧
      x.times_reactivated ≤ y.times_reactivated)

instance : DecidableRel relChurn := fun x y =>
  inferInstanceAs (Decidable (y.times_churned < x.times_churned ∨
    (x.times_churned = y.times_churned ∧
      x.times_reactivated ≤ y.times_reactivated)))

/-- Result rows of `get_churn_numbers`: one row per distinct organization,
counting its rows of each `type` and summing its amounts. -/
def churnNumbers (charges : List ChargeRow) : List ChurnRow :=
  List.insertionSort relChurn
    ((distinctOrgIds charges).map (fun oid =>
      { organization_id := oid
        times_churned :=
          ((charges.filter (fun r =>
            decide (r.organization_id = oid ∧ r.type = "Churned"))).length : Int)
        times_reactivated :=
          ((charges.filter (fun r =>
            decide (r.organization_id = oid ∧ r.type = "Reactivated"))).length : Int)
        times_retained :=
          ((charges.filter (fun r =>
            decide (r.organization_id = oid ∧ r.type = "Retained"))).length : Int)
        revenue := sumAmount charges oid }))

/-- The grouping key of `monthly_charges_2021` row `r` used by the
`groupedby_plans` / `groupedby_types` CTEs:
`(key column, EXTRACT(QUARTER FROM charged_on), EXTRACT(MONTH FROM charged_on))`. -/
def chargeKey (key : ChargeRow → String) (r : ChargeRow) :
    String × Nat × Nat :=
  (key r, extractQuarter r.charged_on, extractMonth r.charged_on)

/-- One row of the `groupedby_plans` (key = `plan`) or `groupedby_types`
(key = `type`) common table expression.  The field `key` stands for the
grouping column, named `plan` respectively `type` in the SQL. -/
structure GroupRow where
  key : String
  quarter : Nat
  month : Nat
  num_charges : Int
  num_sales_driven : Int
  revenue : Int
deriving DecidableEq

/-- The `GROUP BY 1,2,3` inner query shared by `get_groupby_plan` and
`get_groupby_type`: one row per distinct `(key, quarter, month)` with
`COUNT(*)`, `SUM(CASE WHEN is_sales_driven ...)` and `SUM(amount_usd)`. -/
def groupedBy (key : ChargeRow → String) (charges : List ChargeRow) :
    List GroupRow :=
  ((charges.map (chargeKey key)).dedup).map (fun k =>
    { key := k.1
      quarter := k.2.1
      month := k.2.2
      num_charges :=
        ((charges.filter (fun r => decide (chargeKey key r = k))).length : Int)
      num_sales_driven :=
        ((charges.filter (fun r =>
          decide (chargeKey key r = k) && r.is_sales_driven)).length : Int)
      revenue :=
        ((charges.filter (fun r => decide (chargeKey key r = k))).map
          (fun r => r.amount_usd)).sum })

/-- `SUM(f) OVER (PARTITION BY ...)`: the sum of `f` over the rows of the
partition selected by `p`. -/
def windowSum (gs : List GroupRow) (p : GroupRow → Bool) (f : GroupRow → Int) :
    Int :=
  ((gs.filter p).map f).sum

/-- An output row of `get_groupby_plan` / `get_groupby_type`, fields in
select-list order.  `key` stands for the `plan` respectively `type` column,
and the `..._by_key` fields for `..._by_plan` respectively `..._by_type`. -/
structure WindowRow where
  key : String
  month : Nat
  quarter : Nat
  monthly_count : Int
  qtr_count : Int
  count_by_key : Int
  total_count : Int
  monthly_sales_driven : Int
  qtr_sales_driven : Int
  sales_driven_by_key : Int
  total_sales_driven : Int
  monthly_revenue : Int
  qtr_revenue : Int
  revenue_by_key : Int
  total_revenue : Int
deriving DecidableEq

/-- The window-function select list of `get_groupby_plan` /
`get_groupby_type` applied to one grouped row `g`, partitioning the full
grouped result `gs`. -/
def mkWindowRow (gs : List GroupRow) (g : GroupRow) : WindowRow :=
  { key := g.key
    month := g.month
    quarter := g.quarter
    monthly_count :=
      windowSum gs (fun h => decide (h.key = g.key ∧ h.month = g.month))
        (fun h => h.num_charges)
    qtr_count :=
      windowSum gs (fun h => decide (h.key = g.key ∧ h.quarter = g.quarter))
        (fun h => h.num_charges)
    count_by_key :=
      windowSum gs (fun h => decide (h.key = g.key)) (fun h => h.num_charges)
    total_count := (gs.map (fun h => h.num_charges)).sum
    monthly_sales_driven :=
      windowSum gs (fun h => decide (h.key = g.key ∧ h.month = g.month))
        (fun h => h.num_sales_driven)
    qtr_sales_driven :=
      windowSum gs (fun h => decide (h.key = g.key ∧ h.quarter = g.quarter))
        (fun h => h.num_sales_driven)
    sales_driven_by_key :=
      windowSum gs (fun h => decide (h.key = g.key))
        (fun h => h.num_sales_driven)
    total_sales_driven := (gs.map (fun h => h.num_sales_driven)).sum
    monthly_revenue :=
      windowSum gs (fun h => decide (h.key = g.key ∧ h.month = g.month))
        (fun h => h.revenue)
    qtr_revenue :=
      windowSum gs (fun h => decide (h.key = g.key ∧ h.quarter = g.quarter))
        (fun h => h.revenue)
    revenue_by_key :=
      windowSum gs (fun h => decide (h.key = g.key)) (fun h => h.revenue)
    total_revenue := (gs.map (fun h => h.revenue)).sum }

/-- `ORDER BY 1,2,3` of the outer groupby queries: ascending by
`(key, month, quarter)` (columns 1, 2, 3 of the select list). -/
def relWindow (x y : WindowRow) : Prop :=
  x.key < y.key ∨
    (x.key = y.key ∧
      (x.month < y.month ∨ (x.month = y.month ∧ x.quarter ≤ y.quarter)))

instance : DecidableRel relWindow := fun x y =>
  inferInstanceAs (Decidable (x.key < y.key ∨
    (x.key = y.key ∧
      (x.month < y.month ∨ (x.month = y.month ∧ x.quarter ≤ y.quarter)))))

/-- Shared body of `get_groupby_plan` and `get_groupby_type`: group, apply
the window select list, sort by `(key, month, quarter)`. -/
def windowRowsBy (key : ChargeRow → String) (charges : List ChargeRow) :
    List WindowRow :=
  List.insertionSort relWindow
    ((groupedBy key charges).map (mkWindowRow (groupedBy key charges)))

/-- Result rows of `get_groupby_plan` (grouping column `plan`). -/
def getGroupbyPlanRows (charges : List ChargeRow) : List WindowRow :=
  windowRowsBy (fun r => r.plan) charges

/-- Result rows of `get_groupby_type` (grouping column `type`). -/
def getGroupbyTypeRows (charges : List ChargeRow) : List WindowRow :=
  windowRowsBy (fun r => r.type) charges

/-- Failure of the remote query execution (the `client.query(...)` /
`to_dataframe()` step). -/
structure QueryError where
  message : String

/-- Failure of the module-level configuration and client construction that
runs before any routine body can execute. -/
structure SetupError where
  message : String

/-- `BASE_DIR / 'data' / 'raw'`, relative to `BASE_DIR`. -/
def RAW_DIR : String := "data/raw"

/-- `BASE_DIR / 'data' / 'processed'`, relative to `BASE_DIR`. -/
def PROCESSED_DIR : String := "data/processed"

/-- A CSV file written by `df.to_csv(destination, index=False, header=True)`:
its directory, file name and the lines of its content (header line first). -/
structure CsvFile where
  dir : String
  name : String
  lines : List String
deriving DecidableEq

/-- The full destination path `<category_dir>/<target_file_name>`. -/
def CsvFile.path (f : CsvFile) : String := f.dir ++ "/" ++ f.name

/-- The lines `to_csv` writes for column list `header` and rendered data
rows `rows`: the header line followed by one line per record. -/
def csvContent (header : List String) (rows : List (List String)) :
    List String :=
  String.intercalate "," header :: rows.map (String.intercalate ",")

/-- Rendering of a boolean cell. -/
def renderBool (b : Bool) : String := if b then "True" else "False"

/-- Rendering of a date cell. -/
def renderDate (d : Date) : String :=
  toString d.year ++ "-" ++ toString d.month ++ "-" ++ toString d.day

/-- Column list of the `get_monthly_charges_2021` result (`SELECT *`): the
columns of `monthly_charges_2021` witnessed by the script's queries. -/
def monthlyCharges2021Columns : List String :=
  ["organization_id", "plan", "type", "is_sales_driven", "charged_on",
   "amount_usd"]

/-- CSV cells of a `get_monthly_charges_2021` result row. -/
def renderChargeRow (r : ChargeRow) : List String :=
  [toString r.organization_id, r.plan, r.type, renderBool r.is_sales_driven,
   renderDate r.charged_on, toString r.amount_usd]

/-- CSV cells of a `get_orgs_before_2022` result row. -/
def renderOrgProjRow (r : OrgProjRow) : List String :=
  [toString r.organization_id, toString r.organization_owner_id,
   renderDate r.created_at, renderBool r.has_active_subscription,
   r.current_subscription_plan, r.current_billing_period,
   toString r.first_billed_user_count,
   toString r.revenue_realized_to_date_usd, toString r.time_entries_count,
   toString r.billable_time_entries_count, toString r.hours_tracked,
   toString r.billable_hours_tracked, toString r.clients_used,
   toString r.projects_used, toString r.billable_projects_used, r.country,
   r.industry, toString r.approximate_employees,
   toString r.reported_annual_revenue]

/-- Column list of the `get_paying_organizations` result, in select-list
order. -/
def payingOrganizationsColumns : List String :=
  ["organization_id", "organization_owner_id", "total_revenue_2021",
   "revenue_realized_to_date_usd", "time_entries_count",
   "billable_time_entries_count", "hours_tracked", "billable_hours_tracked",
   "clients_used", "projects_used", "billable_projects_used", "country",
   "industry", "company_type", "approximate_employees",
   "reported_annual_revenue"]

/-- CSV cells of a `get_paying_organizations` result row. -/
def renderPayingRow (r : PayingOrgRow) : List String :=
  [toString r.organization_id, toString r.organization_owner_id,
   toString r.total_revenue_2021, toString r.revenue_realized_to_date_usd,
   toString r.time_entries_count, toString r.billable_time_entries_count,
   toString r.hours_tracked, toString r.billable_hours_tracked,
   toString r.clients_used, toString r.projects_used,
   toString r.billable_projects_used, r.country, r.industry, r.company_type,
   toString r.approximate_employees, toString r.reported_annual_revenue]

/-- Column list of the `get_churn_numbers` result. -/
def churnNumbersColumns : List String :=
  ["organization_id", "times_churned", "times_reactivated", "times_retained",
   "revenue"]

/-- CSV cells of a `get_churn_numbers` result row. -/
def renderChurnRow (r : ChurnRow) : List String :=
  [toString r.organization_id, toString r.times_churned,
   toString r.times_reactivated, toString r.times_retained,
   toString r.revenue]

/-- Column list of the `get_outliers_and_mode` result, in select-list
order. -/
def outliersAndModeColumns : List String :=
  ["organization_id", "total_revenue_2021", "organization_owner_id",
   "revenue_realized_to_date_usd", "time_entries_count",
   "billable_time_entries_count", "hours_tracked", "billable_hours_tracked",
   "clients_used", "projects_used", "billable_projects_used", "country",
   "industry", "company_type", "approximate_employees",
   "reported_annual_revenue"]

/-- CSV cells of a `get_outliers_and_mode` result row. -/
def renderOutlierRow (r : OutlierOrgRow) : List String :=
  [toString r.organization_id, toString r.total_revenue_2021,
   toString r.organization_owner_id, toString r.revenue_realized_to_date_usd,
   toString r.time_entries_count, toString r.billable_time_entries_count,
   toString r.hours_tracked, toString r.billable_hours_tracked,
   toString r.clients_used, toString r.projects_used,
   toString r.billable_projects_used, r.country, r.industry, r.company_type,
   toString r.approximate_employees, toString r.reported_annual_revenue]

/-- Column list of the `get_groupby_plan` result, in select-list order. -/
def groupbyPlanColumns : List String :=
  ["plan", "month", "quarter", "monthly_count", "qtr_count", "count_by_plan",
   "total_count", "monthly_sales_driven", "qtr_sales_driven",
   "sales_driven_by_plan", "total_sales_driven", "monthly_revenue",
   "qtr_revenue", "revenue_by_plan", "total_revenue"]

/-- Column list of the `get_groupby_type` result, in select-list order. -/
def groupbyTypeColumns : List String :=
  ["type", "month", "quarter", "monthly_count", "qtr_count", "count_by_type",
   "total_count", "monthly_sales_driven", "qtr_sales_driven",
   "sales_driven_by_type", "total_sales_driven", "monthly_revenue",
   "qtr_revenue", "revenue_by_type", "total_revenue"]

/-- CSV cells of a groupby result row. -/
def renderWindowRow (r : WindowRow) : List String :=
  [r.key, toString r.month, toString r.quarter, toString r.monthly_count,
   toString r.qtr_count, toString r.count_by_key, toString r.total_count,
   toString r.monthly_sales_driven, toString r.qtr_sales_driven,
   toString r.sales_driven_by_key, toString r.total_sales_driven,
   toString r.monthly_revenue, toString r.qtr_revenue,
   toString r.revenue_by_key, toString r.total_revenue]

/-- The shared body of every extraction routine after the SQL text is fixed:
`df = client.query(sql).to_dataframe()` either fails (no file is written) or
returns the full result set, and only then `df.to_csv` writes the single
destination file with a header line and all rendered rows. -/
def extractionWrites {ρ : Type} (dir name : String) (header : List String)
    (render : ρ → List String) (result : Except QueryError (List ρ)) :
    List CsvFile :=
  match result with
  | Except.error _ => []
  | Except.ok rows => [⟨dir, name, csvContent header (rows.map render)⟩]

/-- File writes of `get_monthly_charges_2021 target_file_name`, given the
outcome of its remote query. -/
def runMonthlyCharges2021 (result : Except QueryError (List ChargeRow))
    (name : String) : List CsvFile :=
  extractionWrites RAW_DIR name monthlyCharges2021Columns renderChargeRow
    result

/-- File writes of `get_orgs_before_2022 target_file_name`. -/
def runOrgsBefore2022 (result : Except QueryError (List OrgProjRow))
    (name : String) : List CsvFile :=
  extractionWrites RAW_DIR name orgsBefore2022Columns renderOrgProjRow result

/-- File writes of `get_paying_organizations target_file_name`. -/
def runPayingOrganizations (result : Except QueryError (List PayingOrgRow))
    (name : String) : List CsvFile :=
  extractionWrites PROCESSED_DIR name payingOrganizationsColumns
    renderPayingRow result

/-- File writes of `get_churn_numbers target_file_name`. -/
def runChurnNumbers (result : Except QueryError (List ChurnRow))
    (name : String) : List CsvFile :=
  extractionWrites PROCESSED_DIR name churnNumbersColumns renderChurnRow
    result

/-- File writes of `get_outliers_and_mode target_file_name`. -/
def runOutliersAndMode (result : Except QueryError (List OutlierOrgRow))
    (name : String) : List CsvFile :=
  extractionWrites PROCESSED_DIR name outliersAndModeColumns renderOutlierRow
    result

/-- File writes of `get_groupby_plan target_file_name`. -/
def runGroupbyPlan (result : Except QueryError (List WindowRow))
    (name : String) : List CsvFile :=
  extractionWrites PROCESSED_DIR name groupbyPlanColumns renderWindowRow
    result

/-- File writes of `get_groupby_type target_file_name`. -/
def runGroupbyType (result : Except QueryError (List WindowRow))
    (name : String) : List CsvFile :=
  extractionWrites PROCESSED_DIR name groupbyTypeColumns renderWindowRow
    result

/-- The module-level setup (credential loading and client construction)
executes before any routine body can run: if it fails, no routine runs and
no file is written. -/
def pipelineWrites (setup : Except SetupError Unit)
    (routineWrites : List CsvFile) : List CsvFile :=
  match setup with
  | Except.error _ => []
  | Except.ok _ => routineWrites

/-- The local filesystem, as a map from paths to file contents. -/
def FS : Type := String → Option (List String)

/-- `to_csv` opens its destination in write mode: the previous content of
that path is replaced; other paths are untouched. -/
def writeFile (fs : FS) (p : String) (content : List String) : FS :=
  fun q => if q = p then some content else fs q

/-- Apply a sequence of file writes to the filesystem, in order. -/
def applyWrites (fs : FS) (ws : List CsvFile) : FS :=
  ws.foldl (fun acc w => writeFile acc (CsvFile.path w) w.lines) fs

/-! ### Derived properties and orderings -/

/-- The distinct months appearing among the grouped rows of one key
(one plan, respectively one charge type). -/
abbrev keyMonths (gs : List GroupRow) (k : String) : List Nat :=
  ((gs.filter (fun g => decide (g.key = k))).map (fun g => g.month)).dedup

/-- The distinct keys (plans, respectively charge types) of the grouped
rows. -/
abbrev keysOf (gs : List GroupRow) : List String :=
  (gs.map (fun g => g.key)).dedup

/-- The `monthly_*` window value of partition `(k, m)`. -/
abbrev monthlyAgg (gs : List GroupRow) (k : String) (m : Nat)
    (f : GroupRow → Int) : Int :=
  windowSum gs (fun h => decide (h.key = k ∧ h.month = m)) f

/-- The `*_by_plan` / `*_by_type` window value of partition `k`. -/
abbrev keyAgg (gs : List GroupRow) (k : String) (f : GroupRow → Int) : Int :=
  windowSum gs (fun h => decide (h.key = k)) f

/-- The internal-consistency property of one output row of the groupby
routines: its `monthly_*` columns are the partition sums of its own
`(key, month)` partition; the `monthly_*` values summed over the distinct
months of its key give its `*_by_key` column; and the `*_by_key` values
summed over the distinct keys give its `total_*` column — for the charge
counts, the sales-driven counts and the revenue alike. -/
abbrev windowConsistent (gs : List GroupRow) (r : WindowRow) : Prop :=
  r.monthly_count = monthlyAgg gs r.key r.month (fun h => h.num_charges) ∧
  ((keyMonths gs r.key).map
    (fun m => monthlyAgg gs r.key m (fun h => h.num_charges))).sum
    = r.count_by_key ∧
  ((keysOf gs).map (fun k => keyAgg gs k (fun h => h.num_charges))).sum
    = r.total_count ∧
  r.monthly_sales_driven
    = monthlyAgg gs r.key r.month (fun h => h.num_sales_driven) ∧
  ((keyMonths gs r.key).map
    (fun m => monthlyAgg gs r.key m (fun h => h.num_sales_driven))).sum
    = r.sales_driven_by_key ∧
  ((keysOf gs).map (fun k => keyAgg gs k (fun h => h.num_sales_driven))).sum
    = r.total_sales_driven ∧
  r.monthly_revenue = monthlyAgg gs r.key r.month (fun h => h.revenue) ∧
  ((keyMonths gs r.key).map
    (fun m => monthlyAgg gs r.key m (fun h => h.revenue))).sum
    = r.revenue_by_key ∧
  ((keysOf gs).map (fun k => keyAgg gs k (fun h => h.revenue))).sum
    = r.total_revenue

/-- The column-wise projection of `get_orgs_before_2022` keeps each of the
19 selected columns' values unchanged. -/
abbrev orgProjFaithful (b : OrgRow) : Prop :=
  (orgProj b).organization_id = b.organization_id ∧
  (orgProj b).organization_owner_id = b.organization_owner_id ∧
  (orgProj b).created_at = b.created_at ∧
  (orgProj b).has_active_subscription = b.has_active_subscription ∧
  (orgProj b).current_subscription_plan = b.current_subscription_plan ∧
  (orgProj b).current_billing_period = b.current_billing_period ∧
  (orgProj b).first_billed_user_count = b.first_billed_user_count ∧
  (orgProj b).revenue_realized_to_date_usd = b.revenue_realized_to_date_usd ∧
  (orgProj b).time_entries_count = b.time_entries_count ∧
  (orgProj b).billable_time_entries_count = b.billable_time_entries_count ∧
  (orgProj b).hours_tracked = b.hours_tracked ∧
  (orgProj b).billable_hours_tracked = b.billable_hours_tracked ∧
  (orgProj b).clients_used = b.clients_used ∧
  (orgProj b).projects_used = b.projects_used ∧
  (orgProj b).billable_projects_used = b.billable_projects_used ∧
  (orgProj b).country = b.country ∧
  (orgProj b).industry = b.industry ∧
  (orgProj b).approximate_employees = b.approximate_employees ∧
  (orgProj b).reported_annual_revenue = b.reported_annual_revenue

/-! ### Example tables used by witness theorems -/

/-- Scenario table of C1: org 1 has rows of amount 100 and -50, org 2 one
row of amount 0. -/
def exChargesC1 : List ChargeRow :=
  [⟨1, "premium", "Retained", false, ⟨2021, 1, 1⟩, 100⟩,
   ⟨1, "premium", "Churned", false, ⟨2021, 2, 1⟩, -50⟩,
   ⟨2, "starter", "Retained", false, ⟨2021, 1, 1⟩, 0⟩]

/-- An `organizations_before_2022` row for org 1. -/
def exOrgA : OrgRow :=
  ⟨1, 10, ⟨2020, 1, 1⟩, true, "premium", "monthly", 3, 40, 8, 6, 9, 7, 2, 4,
   3, "US", "tech", "llc", 5, 1000⟩

/-- An `organizations_before_2022` row for org 2. -/
def exOrgB : OrgRow :=
  ⟨2, 11, ⟨2020, 2, 1⟩, false, "starter", "yearly", 1, 0, 2, 1, 3, 2, 1, 1,
   1, "DE", "law", "gmbh", 8, 2000⟩

/-- Organizations table of the C1 scenario. -/
def exOrgsC1 : List OrgRow := [exOrgA, exOrgB]

/-- The single output row of the C1 scenario: org 1 joined with its total
revenue 50. -/
def exPayingRowC1 : PayingOrgRow := mkPayingRow 1 50 exOrgA

/-- One-charge table for the C2 witness: plan "premium", type "Retained",
charged in month 5 (quarter 2), amount 7, sales driven. -/
def exChargesC2 : List ChargeRow :=
  [⟨1, "premium", "Retained", true, ⟨2021, 5, 10⟩, 7⟩]

/-- The single `get_groupby_plan` output row of `exChargesC2`. -/
def exWindowRowP : WindowRow :=
  ⟨"premium", 5, 2, 1, 1, 1, 1, 1, 1, 1, 1, 7, 7, 7, 7⟩

/-- The single `get_groupby_type` output row of `exChargesC2`. -/
def exWindowRowT : WindowRow :=
  ⟨"Retained", 5, 2, 1, 1, 1, 1, 1, 1, 1, 1, 7, 7, 7, 7⟩

/-- Charges for the C3 witness: org 1 sums to 300 (inside neither range),
org 3 sums to 95 (mode range), org 4 sums to 23000 (above the outlier
threshold). -/
def exChargesC3 : List ChargeRow :=
  [⟨1, "premium", "Retained", false, ⟨2021, 1, 1⟩, 300⟩,
   ⟨3, "starter", "Retained", false, ⟨2021, 3, 1⟩, 95⟩,
   ⟨4, "premium", "Retained", true, ⟨2021, 6, 1⟩, 23000⟩]

/-- An `organizations_before_2022` row for org 3. -/
def exOrgC : OrgRow :=
  ⟨3, 12, ⟨2019, 5, 2⟩, true, "starter", "monthly", 2, 95, 4, 2, 6, 3, 1, 2,
   1, "FR", "media", "sarl", 3, 500⟩

/-- An `organizations_before_2022` row for org 4. -/
def exOrgD : OrgRow :=
  ⟨4, 13, ⟨2018, 7, 9⟩, true, "premium", "yearly", 40, 23000, 90, 80, 70, 60,
   12, 15, 11, "UK", "finance", "ltd", 120, 90000⟩

/-- Organizations table of the C3 witness. -/
def exOrgsC3 : List OrgRow := [exOrgA, exOrgC, exOrgD]

/-- An `organizations_before_2022` row used by the C4 witness. -/
def exOrgC4 : OrgRow :=
  ⟨7, 70, ⟨2021, 3, 4⟩, true, "premium", "monthly", 6, 300, 20, 15, 30, 25,
   4, 5, 3, "ES", "retail", "sl", 14, 4000⟩

/-- Source table of the C4 witness. -/
def exOrgsC4 : List OrgRow := [exOrgC4]

/-! ### Totality and transitivity of the ORDER BY relations -/

instance : IsTotal PayingOrgRow relPay :=
  ⟨fun a b => le_total b.total_revenue_2021 a.total_revenue_2021⟩

instance : IsTrans PayingOrgRow relPay :=
  ⟨fun _ _ _ hab hbc => le_trans hbc hab⟩

instance : IsTotal OutlierOrgRow relOutlier :=
  ⟨fun a b => le_total b.total_revenue_2021 a.total_revenue_2021⟩

instance : IsTrans OutlierOrgRow relOutlier :=
  ⟨fun _ _ _ hab hbc => le_trans hbc hab⟩

instance : IsTotal ChurnRow relChurn :=
  ⟨fun a b => by unfold relChurn; omega⟩

instance : IsTrans ChurnRow relChurn :=
  ⟨fun a b c hab hbc => by unfold relChurn at *; omega⟩

instance : IsTotal WindowRow relWindow := by
  constructor
  intro a b
  rcases lt_trichotomy a.key b.key with h | h | h
  · exact Or.inl (Or.inl h)
  · rcases Nat.lt_trichotomy a.month b.month with hm | hm | hm
    · exact Or.inl (Or.inr ⟨h, Or.inl hm⟩)
    · rcases Nat.le_total a.quarter b.quarter with hq | hq
      · exact Or.inl (Or.inr ⟨h, Or.inr ⟨hm, hq⟩⟩)
      · exact Or.inr (Or.inr ⟨h.symm, Or.inr ⟨hm.symm, hq⟩⟩)
    · exact Or.inr (Or.inr ⟨h.symm, Or.inl hm⟩)
  · exact Or.inr (Or.inl h)

instance : IsTrans WindowRow relWindow := by
  constructor
  intro a b c hab hbc
  rcases hab with h1 | ⟨e1, h1⟩ <;> rcases hbc with h2 | ⟨e2, h2⟩
  · exact Or.inl (lt_trans h1 h2)
  · exact Or.inl (e2 ▸ h1)
  · exact Or.inl (e1 ▸ h2)
  · exact Or.inr ⟨e1.trans e2, by omega⟩

/-! ### Helper lemmas -/

lemma mem_distinctOrgIds {charges : List ChargeRow} {oid : Nat} :
    oid ∈ distinctOrgIds charges ↔ ∃ r ∈ charges, r.organization_id = oid := by
  simp [distinctOrgIds, List.mem_dedup]

lemma sumAmount_eq_zero_of_not_mem {charges : List ChargeRow} {oid : Nat}
    (h : oid ∉ distinctOrgIds charges) : sumAmount charges oid = 0 := by
  have hnil : charges.filter (fun r => decide (r.organization_id = oid)) = [] := by
    rw [List.filter_eq_nil_iff]
    intro r hr
    simp only [decide_eq_true_iff]
    intro he
    exact h (mem_distinctOrgIds.mpr ⟨r, hr, he⟩)
  simp [sumAmount, hnil]

lemma mem_havingEarners {pred : Int → Bool} {charges : List ChargeRow}
    {p : Nat × Int} :
    p ∈ havingEarners pred charges ↔
      p.1 ∈ distinctOrgIds charges ∧ p.2 = sumAmount charges p.1 ∧
        pred (sumAmount charges p.1) = true := by
  unfold havingEarners
  rw [List.mem_filterMap]
  constructor
  · rintro ⟨oid, hoid, hsome⟩
    by_cases hp : pred (sumAmount charges oid) = true
    · rw [if_pos hp] at hsome
      obtain rfl : (oid, sumAmount charges oid) = p := Option.some_injective _ hsome
      exact ⟨hoid, rfl, hp⟩
    · rw [if_neg hp] at hsome
      exact absurd hsome (by simp)
  · rintro ⟨hmem, htot, hp⟩
    refine ⟨p.1, hmem, ?_⟩
    rw [if_pos hp, ← htot]

lemma mem_joinOrgs {ρ : Type} {mk : Nat → Int → OrgRow → ρ}
    {pairs : List (Nat × Int)} {orgs : List OrgRow} {r : ρ} :
    r ∈ joinOrgs mk pairs orgs ↔
      ∃ p ∈ pairs, ∃ b ∈ orgs, b.organization_id = p.1 ∧ r = mk p.1 p.2 b := by
  unfold joinOrgs
  rw [List.mem_flatMap]
  constructor
  · rintro ⟨p, hp, hr⟩
    rw [List.mem_map] at hr
    obtain ⟨b, hb, rfl⟩ := hr
    rw [List.mem_filter] at hb
    exact ⟨p, hp, b, hb.1, by simpa using hb.2, rfl⟩
  · rintro ⟨p, hp, b, hb, hid, rfl⟩
    refine ⟨p, hp, ?_⟩
    rw [List.mem_map]
    exact ⟨b, List.mem_filter.mpr ⟨hb, by simpa using hid⟩, rfl⟩

/-- Membership in the joined result of a `GROUP BY ... HAVING pred` CTE with
`organizations_before_2022`: provided an empty group would fail the HAVING
predicate (`pred 0 = false`), an organization id appears among the joined
rows exactly when its amount sum passes `pred` and some organization row
matches it. -/
lemma mem_join_havingEarners {ρ : Type} (pred : Int → Bool)
    (hpred0 : pred 0 = false) (mk : Nat → Int → OrgRow → ρ) (idOf : ρ → Nat)
    (hid : ∀ oid t b, idOf (mk oid t b) = oid) (charges : List ChargeRow)
    (orgs : List OrgRow) (oid : Nat) :
    (∃ r ∈ joinOrgs mk (havingEarners pred charges) orgs, idOf r = oid) ↔
      (pred (sumAmount charges oid) = true ∧
        ∃ b ∈ orgs, b.organization_id = oid) := by
  constructor
  · rintro ⟨r, hr, hroid⟩
    rw [mem_joinOrgs] at hr
    obtain ⟨p, hp, b, hb, hbid, rfl⟩ := hr
    rw [mem_havingEarners] at hp
    rw [hid] at hroid
    subst hroid
    exact ⟨hp.2.2, b, hb, hbid⟩
  · rintro ⟨hpred, b, hb, hbid⟩
    have hmem : oid ∈ distinctOrgIds charges := by
      by_contra hno
      rw [sumAmount_eq_zero_of_not_mem hno] at hpred
      rw [hpred0] at hpred
      exact Bool.false_ne_true hpred
    refine ⟨mk oid (sumAmount charges oid) b, ?_, hid _ _ _⟩
    rw [mem_joinOrgs]
    exact ⟨(oid, sumAmount charges oid),
      mem_havingEarners.mpr ⟨hmem, rfl, hpred⟩, b, hb, hbid, rfl⟩

/-- Every joined row's `total_revenue_2021` value is the amount sum of its
own organization id. -/
lemma total_join_havingEarners {ρ : Type} {pred : Int → Bool}
    {mk : Nat → Int → OrgRow → ρ} (idOf : ρ → Nat) (totalOf : ρ → Int)
    (hid : ∀ oid t b, idOf (mk oid t b) = oid)
    (htot : ∀ oid t b, totalOf (mk oid t b) = t) {charges : List ChargeRow}
    {orgs : List OrgRow} :
    ∀ r ∈ joinOrgs mk (havingEarners pred charges) orgs,
      totalOf r = sumAmount charges (idOf r) := by
  intro r hr
  rw [mem_joinOrgs] at hr
  obtain ⟨p, hp, b, _, _, rfl⟩ := hr
  rw [mem_havingEarners] at hp
  rw [hid, htot, hp.2.1]

lemma sum_map_ite_eq (c : Int) {κ : Type} [DecidableEq κ] :
    ∀ (ks : List κ) (a : κ), ks.Nodup → a ∈ ks →
      (ks.map (fun k => if a = k then c else 0)).sum = c := by
  intro ks
  induction ks with
  | nil => intro a _ ha; exact absurd ha (List.not_mem_nil a)
  | cons k ks ih =>
    intro a hnd ha
    rw [List.nodup_cons] at hnd
    rcases List.mem_cons.mp ha with rfl | ha'
    · have hz : (ks.map (fun j => if a = j then c else 0)).sum = 0 := by
        apply List.sum_eq_zero
        intro x hx
        rw [List.mem_map] at hx
        obtain ⟨j, hj, rfl⟩ := hx
        have : a ≠ j := fun he => hnd.1 (he ▸ hj)
        simp [this]
      simp [hz]
    · have hne : a ≠ k := fun he => hnd.1 (he ▸ ha')
      simp [hne, ih a hnd.2 ha']

/-- Fiberwise summation: summing, over a duplicate-free list of keys that
covers `l`, the sums of `f` over each key's fiber gives the sum of `f` over
all of `l`. -/
lemma sum_fibers {α κ : Type} [DecidableEq κ] (key : α → κ) (f : α → Int) :
    ∀ (l : List α) (ks : List κ), ks.Nodup → (∀ x ∈ l, key x ∈ ks) →
      (ks.map (fun k =>
        ((l.filter (fun x => decide (key x = k))).map f).sum)).sum
        = (l.map f).sum := by
  intro l
  induction l with
  | nil =>
    intro ks _ _
    simp
  | cons x l ih =>
    intro ks hnd hcov
    have hstep : ∀ k : κ,
        (((x :: l).filter (fun y => decide (key y = k))).map f).sum
          = (if key x = k then f x else 0)
            + ((l.filter (fun y => decide (key y = k))).map f).sum := by
      intro k
      by_cases h : key x = k
      · simp [List.filter_cons, h]
      · simp [List.filter_cons, h]
    rw [List.map_congr_left (fun k _ => hstep k), List.sum_map_add]
    rw [sum_map_ite_eq (f x) ks (key x) hnd (hcov x (List.mem_cons_self x l))]
    rw [ih ks hnd (fun y hy => hcov y (List.mem_cons_of_mem x hy))]
    simp

/-! ### Window-sum consistency (get_groupby_plan / get_groupby_type) -/

lemma monthlyAgg_sum_eq_keyAgg (gs : List GroupRow) (k : String)
    (f : GroupRow → Int) :
    ((keyMonths gs k).map (fun m => monthlyAgg gs k m f)).sum
      = keyAgg gs k f := by
  have happ := sum_fibers (fun g : GroupRow => g.month) f
    (gs.filter (fun g => decide (g.key = k))) (keyMonths gs k)
    (List.nodup_dedup _)
    (fun x hx => by
      rw [List.mem_dedup, List.mem_map]
      exact ⟨x, hx, rfl⟩)
  have hfib : ∀ m : Nat,
      ((gs.filter (fun g => decide (g.key = k))).filter
        (fun g => decide (g.month = m))).map f
        = (gs.filter (fun h => decide (h.key = k ∧ h.month = m))).map f := by
    intro m
    rw [List.filter_filter]
    congr 1
    apply List.filter_congr
    intro a _
    by_cases h1 : a.key = k <;> by_cases h2 : a.month = m <;> simp [h1, h2]
  unfold monthlyAgg keyAgg windowSum
  rw [← happ]
  apply congrArg
  apply List.map_congr_left
  intro m _
  rw [hfib m]

lemma keyAgg_sum_eq_total (gs : List GroupRow) (f : GroupRow → Int) :
    ((keysOf gs).map (fun k => keyAgg gs k f)).sum = (gs.map f).sum := by
  exact sum_fibers (fun g : GroupRow => g.key) f gs (keysOf gs)
    (List.nodup_dedup _)
    (fun x hx => by
      rw [List.mem_dedup, List.mem_map]
      exact ⟨x, hx, rfl⟩)

lemma windowConsistent_of_mem (key : ChargeRow → String)
    (charges : List ChargeRow) :
    ∀ r ∈ windowRowsBy key charges,
      windowConsistent (groupedBy key charges) r := by
  intro r hr
  unfold windowRowsBy at hr
  rw [List.mem_insertionSort] at hr
  rw [List.mem_map] at hr
  obtain ⟨g, _, rfl⟩ := hr
  refine ⟨rfl, ?_, ?_, rfl, ?_, ?_, rfl, ?_, ?_⟩
  · exact monthlyAgg_sum_eq_keyAgg _ _ _
  · exact keyAgg_sum_eq_total _ _
  · exact monthlyAgg_sum_eq_keyAgg _ _ _
  · exact keyAgg_sum_eq_total _ _
  · exact monthlyAgg_sum_eq_keyAgg _ _ _
  · exact keyAgg_sum_eq_total _ _

/-! ### Claim theorems -/

/-- C1: an organization appears in the `get_paying_organizations` output
exactly when the sum of its `amount_usd` values over `monthly_charges_2021`
is strictly positive and some `organizations_before_2022` row matches its
id, and every output row's `total_revenue_2021` is that sum. -/
theorem paying_organizations_spec (charges : List ChargeRow)
    (orgs : List OrgRow) :
    (∀ oid : Nat,
      ((∃ r ∈ payingOrganizations charges orgs, r.organization_id = oid) ↔
        (0 < sumAmount charges oid ∧
          ∃ b ∈ orgs, b.organization_id = oid))) ∧
    (∀ r ∈ payingOrganizations charges orgs,
      r.total_revenue_2021 = sumAmount charges r.organization_id) := by
  constructor
  · intro oid
    have hmem :
        (∃ r ∈ payingOrganizations charges orgs, r.organization_id = oid) ↔
          (∃ r ∈ joinOrgs mkPayingRow (nonzeroEarners charges) orgs,
            r.organization_id = oid) := by
      unfold payingOrganizations
      constructor
      · rintro ⟨r, hr, he⟩
        exact ⟨r, (List.mem_insertionSort relPay).mp hr, he⟩
      · rintro ⟨r, hr, he⟩
        exact ⟨r, (List.mem_insertionSort relPay).mpr hr, he⟩
    rw [hmem]
    unfold nonzeroEarners
    rw [mem_join_havingEarners (fun s => decide (0 < s)) (by decide)
      mkPayingRow (fun r => r.organization_id) (fun _ _ _ => rfl) charges
      orgs oid]
    rw [decide_eq_true_iff]
  · intro r hr
    unfold payingOrganizations at hr
    rw [List.mem_insertionSort] at hr
    unfold nonzeroEarners at hr
    exact total_join_havingEarners (fun r => r.organization_id)
      (fun r => r.total_revenue_2021) (fun _ _ _ => rfl) (fun _ _ _ => rfl)
      r hr

/-- Witness for C1, on the spec's scenario table: org 1 (amounts 100, -50)
appears, org 2 (amount 0) does not, and the output row of org 1 carries the
sum 50 as its `total_revenue_2021`. -/
theorem paying_organizations_spec_witness :
    (∃ r ∈ payingOrganizations exChargesC1 exOrgsC1,
      r.organization_id = 1) ∧
    (¬ ∃ r ∈ payingOrganizations exChargesC1 exOrgsC1,
      r.organization_id = 2) ∧
    (exPayingRowC1.total_revenue_2021
      = sumAmount exChargesC1 exPayingRowC1.organization_id ∧
      sumAmount exChargesC1 1 = 50) := by
  refine ⟨?_, ?_, ?_, by decide⟩
  · exact ((paying_organizations_spec exChargesC1 exOrgsC1).1 1).mpr
      ⟨by decide, by decide⟩
  · intro h
    have h2 := ((paying_organizations_spec exChargesC1 exOrgsC1).1 2).mp h
    exact absurd h2.1 (by decide)
  · exact (paying_organizations_spec exChargesC1 exOrgsC1).2 exPayingRowC1
      (by decide)

/-- C2: every output row of `get_groupby_plan` and of `get_groupby_type`
has internally consistent window sums: its monthly values summed over the
distinct months of its plan (respectively charge type) give its
`count_by_plan`/`count_by_type` (here `count_by_key`) column, which summed
over the distinct plans (types) gives `total_count`; likewise for the
sales-driven and revenue columns. -/
theorem groupby_window_sums_consistent (charges : List ChargeRow) :
    (∀ r ∈ getGroupbyPlanRows charges,
      windowConsistent (groupedBy (fun c => c.plan) charges) r) ∧
    (∀ r ∈ getGroupbyTypeRows charges,
      windowConsistent (groupedBy (fun c => c.type) charges) r) :=
  ⟨windowConsistent_of_mem (fun c => c.plan) charges,
   windowConsistent_of_mem (fun c => c.type) charges⟩

/-- Witness for C2, on a concrete one-charge table, for both routines. -/
theorem groupby_window_sums_consistent_witness :
    windowConsistent (groupedBy (fun c => c.plan) exChargesC2) exWindowRowP ∧
    windowConsistent (groupedBy (fun c => c.type) exChargesC2) exWindowRowT :=
  ⟨(groupby_window_sums_consistent exChargesC2).1 exWindowRowP (by decide),
   (groupby_window_sums_consistent exChargesC2).2 exWindowRowT (by decide)⟩

/-- C3: an organization appears in the `get_outliers_and_mode` output
exactly when the sum of its `amount_usd` values exceeds the fixed threshold
22000 or lies between 90 and 250 inclusive, and some
`organizations_before_2022` row matches its id; the output's
`total_revenue_2021` is that sum.  The thresholds are the literals of the
definition `outlierEarners`, which takes no threshold argument. -/
theorem outliers_and_mode_spec (charges : List ChargeRow)
    (orgs : List OrgRow) :
    (∀ oid : Nat,
      ((∃ r ∈ outliersAndMode charges orgs, r.organization_id = oid) ↔
        ((22000 < sumAmount charges oid ∨
          (90 ≤ sumAmount charges oid ∧ sumAmount charges oid ≤ 250)) ∧
          ∃ b ∈ orgs, b.organization_id = oid))) ∧
    (∀ r ∈ outliersAndMode charges orgs,
      r.total_revenue_2021 = sumAmount charges r.organization_id) := by
  constructor
  · intro oid
    have hmem :
        (∃ r ∈ outliersAndMode charges orgs, r.organization_id = oid) ↔
          (∃ r ∈ joinOrgs mkOutlierRow (outlierEarners charges) orgs,
            r.organization_id = oid) := by
      unfold outliersAndMode
      constructor
      · rintro ⟨r, hr, he⟩
        exact ⟨r, (List.mem_insertionSort relOutlier).mp hr, he⟩
      · rintro ⟨r, hr, he⟩
        exact ⟨r, (List.mem_insertionSort relOutlier).mpr hr, he⟩
    rw [hmem]
    unfold outlierEarners
    rw [mem_join_havingEarners
      (fun s => decide (22000 < s) || (decide (90 ≤ s) && decide (s ≤ 250)))
      (by decide) mkOutlierRow (fun r => r.organization_id)
      (fun _ _ _ => rfl) charges orgs oid]
    simp only [Bool.or_eq_true, Bool.and_eq_true, decide_eq_true_iff]
  · intro r hr
    unfold outliersAndMode at hr
    rw [List.mem_insertionSort] at hr
    unfold outlierEarners at hr
    exact total_join_havingEarners (fun r => r.organization_id)
      (fun r => r.total_revenue_2021) (fun _ _ _ => rfl) (fun _ _ _ => rfl)
      r hr

/-- Witness for C3: org 3 (sum 95, in the 90–250 mode range) and org 4
(sum 23000 > 22000) appear; org 1 (sum 300, in neither range) does not. -/
theorem outliers_and_mode_spec_witness :
    (∃ r ∈ outliersAndMode exChargesC3 exOrgsC3, r.organization_id = 3) ∧
    (∃ r ∈ outliersAndMode exChargesC3 exOrgsC3, r.organization_id = 4) ∧
    (¬ ∃ r ∈ outliersAndMode exChargesC3 exOrgsC3,
      r.organization_id = 1) := by
  refine ⟨?_, ?_, ?_⟩
  · exact ((outliers_and_mode_spec exChargesC3 exOrgsC3).1 3).mpr
      ⟨by decide, by decide⟩
  · exact ((outliers_and_mode_spec exChargesC3 exOrgsC3).1 4).mpr
      ⟨by decide, by decide⟩
  · intro h
    have h2 := ((outliers_and_mode_spec exChargesC3 exOrgsC3).1 1).mp h
    exact absurd h2.1 (by decide)

/-- Counterexample to C4 as stated: `company_type` is a column of the
`organizations_before_2022` source table (the script's own join queries
select it), yet it is not among the columns `get_orgs_before_2022` outputs,
so that routine's dump does not carry every column of its source table. -/
theorem raw_extracts_counterexample :
    "company_type" ∈ organizationsBefore2022TableColumns ∧
    "company_type" ∉ orgsBefore2022Columns := by
  decide

/-- C4 (amended): `get_monthly_charges_2021` is a full unfiltered dump
(`SELECT *`), returning the table unchanged.  `get_orgs_before_2022` dumps
every row, unfiltered and with each selected column's value unmodified, but
projects a fixed 19-column subset that omits the source column
`company_type`. -/
theorem raw_extracts_amended (tc : List ChargeRow) (torgs : List OrgRow) :
    monthlyCharges2021Rows tc = tc ∧
    (orgsBefore2022Rows torgs).length = torgs.length ∧
    (∀ b ∈ torgs, orgProj b ∈ orgsBefore2022Rows torgs) ∧
    (∀ b : OrgRow, orgProjFaithful b) ∧
    "company_type" ∉ orgsBefore2022Columns := by
  refine ⟨rfl, by simp [orgsBefore2022Rows], ?_, ?_, by decide⟩
  · intro b hb
    exact List.mem_map_of_mem orgProj hb
  · intro b
    exact ⟨rfl, rfl, rfl, rfl, rfl, rfl, rfl, rfl, rfl, rfl, rfl, rfl, rfl,
      rfl, rfl, rfl, rfl, rfl, rfl⟩

/-- Witness for the amended C4: a concrete source row's projection is in
the concrete output. -/
theorem raw_extracts_amended_witness :
    orgProj exOrgC4 ∈ orgsBefore2022Rows exOrgsC4 :=
  (raw_extracts_amended [] exOrgsC4).2.2.1 exOrgC4 (by decide)

/-- C10: each processed extract is emitted in its routine's ORDER BY order:
`get_paying_organizations` and `get_outliers_and_mode` non-increasing in
`total_revenue_2021`, `get_churn_numbers` non-increasing in `times_churned`
with ties non-decreasing in `times_reactivated`, and the groupby routines
ascending lexicographically in (plan or type, month, quarter). -/
theorem processed_outputs_sorted (charges : List ChargeRow)
    (orgs : List OrgRow) :
    List.Sorted relPay (payingOrganizations charges orgs) ∧
    List.Sorted relOutlier (outliersAndMode charges orgs) ∧
    List.Sorted relChurn (churnNumbers charges) ∧
    List.Sorted relWindow (getGroupbyPlanRows charges) ∧
    List.Sorted relWindow (getGroupbyTypeRows charges) :=
  ⟨List.sorted_insertionSort relPay _, List.sorted_insertionSort relOutlier _,
   List.sorted_insertionSort relChurn _, List.sorted_insertionSort relWindow _,
   List.sorted_insertionSort relWindow _⟩

/-- C5: each of the seven routines, invoked with a destination file name on
a successful query, writes exactly one CSV file, at its category directory
joined with that name, whose header row is the routine's declared column
list. -/
theorem one_csv_per_routine (name : String) (charges : List ChargeRow)
    (orgs : List OrgRow) :
    ((runMonthlyCharges2021 (Except.ok (monthlyCharges2021Rows charges))
        name).map CsvFile.path = [RAW_DIR ++ "/" ++ name] ∧
      (runMonthlyCharges2021 (Except.ok (monthlyCharges2021Rows charges))
        name).map (fun f => f.lines.head?)
        = [some (String.intercalate "," monthlyCharges2021Columns)]) ∧
    ((runOrgsBefore2022 (Except.ok (orgsBefore2022Rows orgs)) name).map
        CsvFile.path = [RAW_DIR ++ "/" ++ name] ∧
      (runOrgsBefore2022 (Except.ok (orgsBefore2022Rows orgs)) name).map
        (fun f => f.lines.head?)
        = [some (String.intercalate "," orgsBefore2022Columns)]) ∧
    ((runPayingOrganizations
        (Except.ok (payingOrganizations charges orgs)) name).map
        CsvFile.path = [PROCESSED_DIR ++ "/" ++ name] ∧
      (runPayingOrganizations
        (Except.ok (payingOrganizations charges orgs)) name).map
        (fun f => f.lines.head?)
        = [some (String.intercalate "," payingOrganizationsColumns)]) ∧
    ((runChurnNumbers (Except.ok (churnNumbers charges)) name).map
        CsvFile.path = [PROCESSED_DIR ++ "/" ++ name] ∧
      (runChurnNumbers (Except.ok (churnNumbers charges)) name).map
        (fun f => f.lines.head?)
        = [some (String.intercalate "," churnNumbersColumns)]) ∧
    ((runOutliersAndMode (Except.ok (outliersAndMode charges orgs))
        name).map CsvFile.path = [PROCESSED_DIR ++ "/" ++ name] ∧
      (runOutliersAndMode (Except.ok (outliersAndMode charges orgs))
        name).map (fun f => f.lines.head?)
        = [some (String.intercalate "," outliersAndModeColumns)]) ∧
    ((runGroupbyPlan (Except.ok (getGroupbyPlanRows charges)) name).map
        CsvFile.path = [PROCESSED_DIR ++ "/" ++ name] ∧
      (runGroupbyPlan (Except.ok (getGroupbyPlanRows charges)) name).map
        (fun f => f.lines.head?)
        = [some (String.intercalate "," groupbyPlanColumns)]) ∧
    ((runGroupbyType (Except.ok (getGroupbyTypeRows charges)) name).map
        CsvFile.path = [PROCESSED_DIR ++ "/" ++ name] ∧
      (runGroupbyType (Except.ok (getGroupbyTypeRows charges)) name).map
        (fun f => f.lines.head?)
        = [some (String.intercalate "," groupbyTypeColumns)]) :=
  ⟨⟨rfl, rfl⟩, ⟨rfl, rfl⟩, ⟨rfl, rfl⟩, ⟨rfl, rfl⟩, ⟨rfl, rfl⟩, ⟨rfl, rfl⟩,
   ⟨rfl, rfl⟩⟩

/-- C6: a failed remote query produces no output file for any routine, a
failed module-level setup produces no output at all, and a file is only
ever written from a fully materialized result set (its content is the
header line plus every result row). -/
theorem no_output_without_full_result (e : QueryError) (se : SetupError)
    (name : String) (ws : List CsvFile) (rc : List ChargeRow)
    (ro : List OrgProjRow) (rp : List PayingOrgRow) (rn : List ChurnRow)
    (rm : List OutlierOrgRow) (rg rt : List WindowRow) :
    (runMonthlyCharges2021 (Except.error e) name = [] ∧
      runOrgsBefore2022 (Except.error e) name = [] ∧
      runPayingOrganizations (Except.error e) name = [] ∧
      runChurnNumbers (Except.error e) name = [] ∧
      runOutliersAndMode (Except.error e) name = [] ∧
      runGroupbyPlan (Except.error e) name = [] ∧
      runGroupbyType (Except.error e) name = []) ∧
    pipelineWrites (Except.error se) ws = [] ∧
    (runMonthlyCharges2021 (Except.ok rc) name
        = [⟨RAW_DIR, name,
            csvContent monthlyCharges2021Columns
              (rc.map renderChargeRow)⟩] ∧
      runOrgsBefore2022 (Except.ok ro) name
        = [⟨RAW_DIR, name,
            csvContent orgsBefore2022Columns (ro.map renderOrgProjRow)⟩] ∧
      runPayingOrganizations (Except.ok rp) name
        = [⟨PROCESSED_DIR, name,
            csvContent payingOrganizationsColumns
              (rp.map renderPayingRow)⟩] ∧
      runChurnNumbers (Except.ok rn) name
        = [⟨PROCESSED_DIR, name,
            csvContent churnNumbersColumns (rn.map renderChurnRow)⟩] ∧
      runOutliersAndMode (Except.ok rm) name
        = [⟨PROCESSED_DIR, name,
            csvContent outliersAndModeColumns (rm.map renderOutlierRow)⟩] ∧
      runGroupbyPlan (Except.ok rg) name
        = [⟨PROCESSED_DIR, name,
            csvContent groupbyPlanColumns (rg.map renderWindowRow)⟩] ∧
      runGroupbyType (Except.ok rt) name
        = [⟨PROCESSED_DIR, name,
            csvContent groupbyTypeColumns (rt.map renderWindowRow)⟩]) :=
  ⟨⟨rfl, rfl, rfl, rfl, rfl, rfl, rfl⟩, rfl,
   ⟨rfl, rfl, rfl, rfl, rfl, rfl, rfl⟩⟩

/-- C7: on a zero-row result, every routine still writes its file, whose
content is exactly the header row and nothing else. -/
theorem header_only_on_empty_result (name : String) :
    runMonthlyCharges2021 (Except.ok []) name
      = [⟨RAW_DIR, name,
          [String.intercalate "," monthlyCharges2021Columns]⟩] ∧
    runOrgsBefore2022 (Except.ok []) name
      = [⟨RAW_DIR, name, [String.intercalate "," orgsBefore2022Columns]⟩] ∧
    runPayingOrganizations (Except.ok []) name
      = [⟨PROCESSED_DIR, name,
          [String.intercalate "," payingOrganizationsColumns]⟩] ∧
    runChurnNumbers (Except.ok []) name
      = [⟨PROCESSED_DIR, name,
          [String.intercalate "," churnNumbersColumns]⟩] ∧
    runOutliersAndMode (Except.ok []) name
      = [⟨PROCESSED_DIR, name,
          [String.intercalate "," outliersAndModeColumns]⟩] ∧
    runGroupbyPlan (Except.ok []) name
      = [⟨PROCESSED_DIR, name,
          [String.intercalate "," groupbyPlanColumns]⟩] ∧
    runGroupbyType (Except.ok []) name
      = [⟨PROCESSED_DIR, name,
          [String.intercalate "," groupbyTypeColumns]⟩] :=
  ⟨rfl, rfl, rfl, rfl, rfl, rfl, rfl⟩

lemma applyWrites_extraction {ρ : Type} (fs : FS) (dir name : String)
    (header : List String) (render : ρ → List String) (rows : List ρ) :
    applyWrites fs
      (extractionWrites dir name header render (Except.ok rows))
      (dir ++ "/" ++ name) = some (csvContent header (rows.map render)) := by
  unfold extractionWrites applyWrites writeFile CsvFile.path
  simp

/-- C8: writing is a full overwrite of the destination path.  After one
invocation the file content is the routine's CSV regardless of what the
filesystem previously held at that path, and a second invocation over the
same data leaves the content of a single invocation. -/
theorem rerun_overwrites (fs : FS) (name : String) (rc : List ChargeRow)
    (ro : List OrgProjRow) (rp : List PayingOrgRow) (rn : List ChurnRow)
    (rm : List OutlierOrgRow) (rg rt : List WindowRow) :
    (applyWrites fs (runMonthlyCharges2021 (Except.ok rc) name)
        (RAW_DIR ++ "/" ++ name)
        = some (csvContent monthlyCharges2021Columns
            (rc.map renderChargeRow)) ∧
      applyWrites
        (applyWrites fs (runMonthlyCharges2021 (Except.ok rc) name))
        (runMonthlyCharges2021 (Except.ok rc) name) (RAW_DIR ++ "/" ++ name)
        = applyWrites fs (runMonthlyCharges2021 (Except.ok rc) name)
            (RAW_DIR ++ "/" ++ name)) ∧
    (applyWrites fs (runOrgsBefore2022 (Except.ok ro) name)
        (RAW_DIR ++ "/" ++ name)
        = some (csvContent orgsBefore2022Columns
            (ro.map renderOrgProjRow)) ∧
      applyWrites (applyWrites fs (runOrgsBefore2022 (Except.ok ro) name))
        (runOrgsBefore2022 (Except.ok ro) name) (RAW_DIR ++ "/" ++ name)
        = applyWrites fs (runOrgsBefore2022 (Except.ok ro) name)
            (RAW_DIR ++ "/" ++ name)) ∧
    (applyWrites fs (runPayingOrganizations (Except.ok rp) name)
        (PROCESSED_DIR ++ "/" ++ name)
        = some (csvContent payingOrganizationsColumns
            (rp.map renderPayingRow)) ∧
      applyWrites
        (applyWrites fs (runPayingOrganizations (Except.ok rp) name))
        (runPayingOrganizations (Except.ok rp) name)
        (PROCESSED_DIR ++ "/" ++ name)
        = applyWrites fs (runPayingOrganizations (Except.ok rp) name)
            (PROCESSED_DIR ++ "/" ++ name)) ∧
    (applyWrites fs (runChurnNumbers (Except.ok rn) name)
        (PROCESSED_DIR ++ "/" ++ name)
        = some (csvContent churnNumbersColumns (rn.map renderChurnRow)) ∧
      applyWrites (applyWrites fs (runChurnNumbers (Except.ok rn) name))
        (runChurnNumbers (Except.ok rn) name) (PROCESSED_DIR ++ "/" ++ name)
        = applyWrites fs (runChurnNumbers (Except.ok rn) name)
            (PROCESSED_DIR ++ "/" ++ name)) ∧
    (applyWrites fs (runOutliersAndMode (Except.ok rm) name)
        (PROCESSED_DIR ++ "/" ++ name)
        = some (csvContent outliersAndModeColumns
            (rm.map renderOutlierRow)) ∧
      applyWrites (applyWrites fs (runOutliersAndMode (Except.ok rm) name))
        (runOutliersAndMode (Except.ok rm) name)
        (PROCESSED_DIR ++ "/" ++ name)
        = applyWrites fs (runOutliersAndMode (Except.ok rm) name)
            (PROCESSED_DIR ++ "/" ++ name)) ∧
    (applyWrites fs (runGroupbyPlan (Except.ok rg) name)
        (PROCESSED_DIR ++ "/" ++ name)
        = some (csvContent groupbyPlanColumns (rg.map renderWindowRow)) ∧
      applyWrites (applyWrites fs (runGroupbyPlan (Except.ok rg) name))
        (runGroupbyPlan (Except.ok rg) name) (PROCESSED_DIR ++ "/" ++ name)
        = applyWrites fs (runGroupbyPlan (Except.ok rg) name)
            (PROCESSED_DIR ++ "/" ++ name)) ∧
    (applyWrites fs (runGroupbyType (Except.ok rt) name)
        (PROCESSED_DIR ++ "/" ++ name)
        = some (csvContent groupbyTypeColumns (rt.map renderWindowRow)) ∧
      applyWrites (applyWrites fs (runGroupbyType (Except.ok rt) name))
        (runGroupbyType (Except.ok rt) name) (PROCESSED_DIR ++ "/" ++ name)
        = applyWrites fs (runGroupbyType (Except.ok rt) name)
            (PROCESSED_DIR ++ "/" ++ name)) :=
  ⟨⟨applyWrites_extraction fs RAW_DIR name monthlyCharges2021Columns
      renderChargeRow rc,
    (applyWrites_extraction _ RAW_DIR name monthlyCharges2021Columns
      renderChargeRow rc).trans
      (applyWrites_extraction fs RAW_DIR name monthlyCharges2021Columns
        renderChargeRow rc).symm⟩,
   ⟨applyWrites_extraction fs RAW_DIR name orgsBefore2022Columns
      renderOrgProjRow ro,
    (applyWrites_extraction _ RAW_DIR name orgsBefore2022Columns
      renderOrgProjRow ro).trans
      (applyWrites_extraction fs RAW_DIR name orgsBefore2022Columns
        renderOrgProjRow ro).symm⟩,
   ⟨applyWrites_extraction fs PROCESSED_DIR name payingOrganizationsColumns
      renderPayingRow rp,
    (applyWrites_extraction _ PROCESSED_DIR name payingOrganizationsColumns
      renderPayingRow rp).trans
      (applyWrites_extraction fs PROCESSED_DIR name
        payingOrganizationsColumns renderPayingRow rp).symm⟩,
   ⟨applyWrites_extraction fs PROCESSED_DIR name churnNumbersColumns
      renderChurnRow rn,
    (applyWrites_extraction _ PROCESSED_DIR name churnNumbersColumns
      renderChurnRow rn).trans
      (applyWrites_extraction fs PROCESSED_DIR name churnNumbersColumns
        renderChurnRow rn).symm⟩,
   ⟨applyWrites_extraction fs PROCESSED_DIR name outliersAndModeColumns
      renderOutlierRow rm,
    (applyWrites_extraction _ PROCESSED_DIR name outliersAndModeColumns
      renderOutlierRow rm).trans
      (applyWrites_extraction fs PROCESSED_DIR name outliersAndModeColumns
        renderOutlierRow rm).symm⟩,
   ⟨applyWrites_extraction fs PROCESSED_DIR name groupbyPlanColumns
      renderWindowRow rg,
    (applyWrites_extraction _ PROCESSED_DIR name groupbyPlanColumns
      renderWindowRow rg).trans
      (applyWrites_extraction fs PROCESSED_DIR name groupbyPlanColumns
        renderWindowRow rg).symm⟩,
   ⟨applyWrites_extraction fs PROCESSED_DIR name groupbyTypeColumns
      renderWindowRow rt,
    (applyWrites_extraction _ PROCESSED_DIR name groupbyTypeColumns
      renderWindowRow rt).trans
      (applyWrites_extraction fs PROCESSED_DIR name groupbyTypeColumns
        renderWindowRow rt).symm⟩⟩

end DownloadData
